import Mathlib

/-!
Verification of the ICU antimicrobial stewardship CDS dashboard (`src/app.py`).

The decision logic is embedded shallowly:

* a patient record, as `map_action` sees it (`row.iloc[i].to_dict()` /
  `user_vals`), is a function from column names to `Option ℚ`; `none`
  models both an absent key and a present `NaN` value, which the code
  treats identically (`row.get(c, np.nan)` followed by an `np.isnan`
  guard before any comparison);
* numeric values are exact rationals: the guardrail rule only compares
  values, so the ordering of representable floats is preserved;
* a pandas `DataFrame` is a row count together with an ordered list of
  named columns of optional rational cells;
* the pre-trained calibrated classifier is an external artifact loaded
  from disk, so `predict_proba` restricted to one row is abstracted as
  an arbitrary function from records to rationals.
-/

namespace Antibiotic

/-- Guardrail bound for `median_temp` (`GUARD_TEMP_MAX = 38.0` in `app.py`). -/
def GUARD_TEMP_MAX : ℚ := 38

/-- Guardrail bound for `median_lactate` (`GUARD_LACTATE_MAX = 2.0` in `app.py`). -/
def GUARD_LACTATE_MAX : ℚ := 2

/-- A record of raw feature values: dictionary lookup returning `none` for a
missing key or a `NaN` value, mirroring `row.get(c, np.nan)` plus the
`np.isnan` guards in `map_action`. -/
def Row : Type := String → Option ℚ

/-- Embedding of `map_action(prob, row, thr)` from `src/app.py`.
`stable` starts `true`; each present guardrail value is and-ed in with a
strict `<` comparison (`stable &= (t < GUARD_TEMP_MAX)`), an absent value
leaves `stable` unchanged. -/
def map_action (prob : ℚ) (row : Row) (thr : ℚ) : String :=
  if prob < thr then
    let t := row "median_temp"
    let l := row "median_lactate"
    let stable1 : Bool :=
      match t with
      | none => true
      | some tv => decide (tv < GUARD_TEMP_MAX)
    let stable2 : Bool :=
      match l with
      | none => stable1
      | some lv => stable1 && decide (lv < GUARD_LACTATE_MAX)
    if stable2 then "Stop / De-escalate" else "Evaluate in 24h"
  else
    "Continue / Broaden if worsening"

/-- C1: a probability at or above the threshold always routes to the
continue branch, regardless of the guardrail inputs; the threshold is
inclusive on the high side. -/
theorem map_action_continue_of_ge (p thr : ℚ) (row : Row) (h : thr ≤ p) :
    map_action p row thr = "Continue / Broaden if worsening" := by
  unfold map_action
  rw [if_neg (not_lt.mpr h)]

/-- Witness for C1: probability exactly equal to the threshold, with both
guardrails failing, still yields the continue branch. -/
theorem map_action_continue_of_ge_witness :
    ((1 : ℚ)/2 ≤ 1/2) ∧
      map_action (1/2) (fun _ => some 40) (1/2)
        = "Continue / Broaden if worsening" :=
  ⟨le_refl _, map_action_continue_of_ge (1/2) (1/2) (fun _ => some 40) (le_refl _)⟩

/-- C2: below the threshold, when both guardrail values are absent or null,
`stable` stays at its default `true` and the action is Stop / De-escalate. -/
theorem map_action_stop_of_absent (p thr : ℚ) (row : Row) (h : p < thr)
    (ht : row "median_temp" = none) (hl : row "median_lactate" = none) :
    map_action p row thr = "Stop / De-escalate" := by
  unfold map_action
  rw [if_pos h, ht, hl]
  rfl

/-- Witness for C2: an empty record below the threshold stops. -/
theorem map_action_stop_of_absent_witness :
    ((3 : ℚ)/10 < 1/2) ∧
      map_action (3/10) (fun _ => none) (1/2) = "Stop / De-escalate" :=
  ⟨by norm_num,
    map_action_stop_of_absent (3/10) (1/2) (fun _ => none) (by norm_num) rfl rfl⟩

/-- C3: guardrail comparisons are strict: below the threshold, a temperature
of exactly 38.0, or a lactate of exactly 2.0, fails its guardrail and the
action is Evaluate in 24h. -/
theorem map_action_boundary_unstable (p thr : ℚ) (row : Row) (h : p < thr) :
    (row "median_temp" = some 38 → map_action p row thr = "Evaluate in 24h") ∧
    (row "median_lactate" = some 2 → map_action p row thr = "Evaluate in 24h") := by
  unfold map_action
  rw [if_pos h]
  constructor
  · intro ht
    rw [ht]
    rcases hl : row "median_lactate" with _ | lv <;> simp [GUARD_TEMP_MAX]
  · intro hl
    rw [hl]
    rcases ht : row "median_temp" with _ | tv <;> simp [GUARD_LACTATE_MAX]

/-- Witness for C3: at probability 0.4 against threshold 0.5, temperature
exactly 38.0 on one record and lactate exactly 2.0 on another both evaluate. -/
theorem map_action_boundary_unstable_witness :
    ((4 : ℚ)/10 < 1/2) ∧
      map_action (4/10)
        (fun c => if c = "median_temp" then some 38 else none) (1/2)
        = "Evaluate in 24h" :=
  ⟨by norm_num,
    (map_action_boundary_unstable (4/10) (1/2)
      (fun c => if c = "median_temp" then some 38 else none) (by norm_num)).1
      (by simp)⟩

/-- C4: below the threshold, if every present guardrail value passes its
strict comparison, the action is Stop / De-escalate. -/
theorem map_action_stop_of_stable (p thr : ℚ) (row : Row) (h : p < thr)
    (ht : ∀ tv, row "median_temp" = some tv → tv < GUARD_TEMP_MAX)
    (hl : ∀ lv, row "median_lactate" = some lv → lv < GUARD_LACTATE_MAX) :
    map_action p row thr = "Stop / De-escalate" := by
  unfold map_action
  rw [if_pos h]
  rcases et : row "median_temp" with _ | tv <;>
    rcases el : row "median_lactate" with _ | lv <;>
      simp_all

/-- Witness for C4: the spec scenario threshold 0.5, probability 0.3,
temperature 37.9, lactate 1.9 stops. -/
theorem map_action_stop_of_stable_witness :
    ((3 : ℚ)/10 < 1/2) ∧
      map_action (3/10)
        (fun c => if c = "median_temp" then some (379/10)
                  else if c = "median_lactate" then some (19/10) else none) (1/2)
        = "Stop / De-escalate" :=
  ⟨by norm_num,
    map_action_stop_of_stable (3/10) (1/2)
      (fun c => if c = "median_temp" then some (379/10)
                else if c = "median_lactate" then some (19/10) else none)
      (by norm_num)
      (by intro tv htv; simp at htv; rw [← htv]; norm_num [GUARD_TEMP_MAX])
      (by intro lv hlv; simp at hlv; rw [← hlv]; norm_num [GUARD_LACTATE_MAX])⟩

/-- C10: `map_action` reads only the probability, the threshold and the two
entries `median_temp` and `median_lactate` of the record, and its result is
always one of the three labels. -/
theorem map_action_depends_only_on_guardrails (p thr : ℚ) (r1 r2 : Row)
    (ht : r1 "median_temp" = r2 "median_temp")
    (hl : r1 "median_lactate" = r2 "median_lactate") :
    map_action p r1 thr = map_action p r2 thr ∧
      (map_action p r1 thr = "Stop / De-escalate" ∨
       map_action p r1 thr = "Evaluate in 24h" ∨
       map_action p r1 thr = "Continue / Broaden if worsening") := by
  constructor
  · unfold map_action
    rw [ht, hl]
  · unfold map_action
    rcases lt_or_le p thr with hp | hp
    · rw [if_pos hp]
      rcases r1 "median_temp" with _ | tv <;>
        rcases r1 "median_lactate" with _ | lv <;>
          dsimp only <;> split <;> simp
    · rw [if_neg (not_lt.mpr hp)]
      simp

/-- Witness for C10: two records differing only in an unrelated column get
the same action. -/
theorem map_action_depends_only_on_guardrails_witness :
    ((fun _ => none : Row) "median_temp"
        = (fun c => if c = "median_wbc" then some 30 else none : Row) "median_temp") ∧
      map_action (3/10) (fun _ => none) (1/2)
        = map_action (3/10) (fun c => if c = "median_wbc" then some 30 else none) (1/2) :=
  ⟨by simp,
    (map_action_depends_only_on_guardrails (3/10) (1/2) (fun _ => none)
      (fun c => if c = "median_wbc" then some 30 else none)
      (by simp) (by simp)).1⟩

/-- A pandas `DataFrame` restricted to what the app manipulates: a row
count and an ordered association list of named columns of optional
rational cells (`none` models `NaN`). -/
structure Df where
  nrows : Nat
  cols : List (String × List (Option ℚ))
deriving DecidableEq

/-- Embedding of `ensure_feature_df(df)` from `src/app.py`, parameterised
by the `FEATURE_ORDER` artifact: every schema column missing from the
input is added as an all-`NaN` column of the input's row count, then the
columns are restricted and reordered to the schema (`df = df[FEATURE_ORDER]`). -/
def ensure_feature_df (feats : List String) (df : Df) : Df :=
  { nrows := df.nrows,
    cols := feats.map fun c =>
      (c, (df.cols.lookup c).getD (List.replicate df.nrows none)) }

/-- Looking a key up in an association list built by pairing each list
element with a computed value finds that value exactly on membership. -/
theorem lookup_map_self {β : Type} (g : String → β) (c : String) (l : List String) :
    List.lookup c (l.map fun x => (x, g x)) = if c ∈ l then some (g c) else none := by
  induction l with
  | nil => rfl
  | cons a t ih =>
    by_cases hca : c = a
    · subst hca
      simp [List.lookup]
    · simp [List.lookup, hca, ih]
      rw [beq_false_of_ne hca]

/-- Lookup commutes with mapping a function over the values of an
association list. -/
theorem lookup_map_snd {β γ : Type} (f : β → γ) (c : String) (l : List (String × β)) :
    List.lookup c (l.map fun p => (p.1, f p.2)) = (List.lookup c l).map f := by
  induction l with
  | nil => rfl
  | cons p t ih =>
    by_cases hc : c = p.1
    · simp [List.lookup, hc]
    · simp [List.lookup, hc, ih]
      rw [beq_false_of_ne hc]

/-- A key outside an association list's key set looks up to `none`. -/
theorem lookup_eq_none_of_not_mem {β : Type} (c : String) (l : List (String × β))
    (h : c ∉ l.map Prod.fst) : List.lookup c l = none := by
  induction l with
  | nil => rfl
  | cons p t ih =>
    simp only [List.map_cons, List.mem_cons, not_or] at h
    simp [List.lookup, h.1, ih h.2]
    rw [beq_false_of_ne h.1]

/-- C5: feature alignment returns exactly the schema columns in schema
order with the input's row count; a schema column missing from the input
becomes an all-null column, a schema column present in the input keeps its
values unchanged, and a column outside the schema is discarded. -/
theorem ensure_feature_df_aligns (feats : List String) (df : Df) :
    ((ensure_feature_df feats df).cols.map Prod.fst = feats) ∧
    ((ensure_feature_df feats df).nrows = df.nrows) ∧
    (∀ c ∈ feats, df.cols.lookup c = none →
      (ensure_feature_df feats df).cols.lookup c
        = some (List.replicate df.nrows none)) ∧
    (∀ c ∈ feats, ∀ col, df.cols.lookup c = some col →
      (ensure_feature_df feats df).cols.lookup c = some col) ∧
    (∀ c, c ∉ feats → (ensure_feature_df feats df).cols.lookup c = none) := by
  refine ⟨?_, rfl, ?_, ?_, ?_⟩
  · unfold ensure_feature_df
    rw [List.map_map]
    exact List.map_id feats
  · intro c hc hnone
    unfold ensure_feature_df
    rw [lookup_map_self, if_pos hc, hnone]
    rfl
  · intro c hc col hcol
    unfold ensure_feature_df
    rw [lookup_map_self, if_pos hc, hcol]
    rfl
  · intro c hc
    unfold ensure_feature_df
    rw [lookup_map_self, if_neg hc]

/-- Witness for C5: a two-column schema against a table holding one schema
column and one extra column keeps the schema column's cells, nulls the
missing one and drops the extra one. -/
theorem ensure_feature_df_aligns_witness :
    ("median_temp" ∈ ["median_temp", "median_lactate"] ∧
      (Df.mk 1 [("median_temp", [some 37]), ("extra", [some 5])]).cols.lookup "median_lactate"
        = none) ∧
    (ensure_feature_df ["median_temp", "median_lactate"]
        (Df.mk 1 [("median_temp", [some 37]), ("extra", [some 5])])).cols.lookup "median_lactate"
      = some (List.replicate 1 none) :=
  ⟨⟨by decide, by decide⟩,
    (ensure_feature_df_aligns ["median_temp", "median_lactate"]
        (Df.mk 1 [("median_temp", [some 37]), ("extra", [some 5])])).2.2.1
      "median_lactate" (by decide) (by decide)⟩

/-- C6: feature alignment is idempotent: applying it twice equals applying
it once, so an already-aligned table is returned unchanged. -/
theorem ensure_feature_df_idem (feats : List String) (df : Df) :
    ensure_feature_df feats (ensure_feature_df feats df)
      = ensure_feature_df feats df := by
  simp only [ensure_feature_df, Df.mk.injEq, true_and]
  apply List.map_congr_left
  intro c hc
  rw [lookup_map_self, if_pos hc]
  rfl

/-- C7: aligning a table that contains none of the schema columns yields
every schema column present and all-null, with the input's row count. -/
theorem ensure_feature_df_all_missing (feats : List String) (df : Df)
    (h : ∀ c ∈ feats, c ∉ df.cols.map Prod.fst) :
    (ensure_feature_df feats df).nrows = df.nrows ∧
    (ensure_feature_df feats df).cols
      = feats.map fun c => (c, List.replicate df.nrows (none : Option ℚ)) := by
  refine ⟨rfl, ?_⟩
  apply List.map_congr_left
  intro c hc
  rw [lookup_eq_none_of_not_mem c df.cols (h c hc)]
  rfl

/-- Witness for C7: a two-row table with only an identifier column aligns
to two all-null schema columns of two rows each. -/
theorem ensure_feature_df_all_missing_witness :
    (∀ c ∈ ["median_temp", "median_lactate"],
        c ∉ (Df.mk 2 [("order_proc_id_coded", [some 1, some 2])]).cols.map Prod.fst) ∧
    (ensure_feature_df ["median_temp", "median_lactate"]
        (Df.mk 2 [("order_proc_id_coded", [some 1, some 2])])).cols
      = [("median_temp", [none, none]), ("median_lactate", [none, none])] :=
  ⟨by decide, by
    have h := ensure_feature_df_all_missing ["median_temp", "median_lactate"]
      (Df.mk 2 [("order_proc_id_coded", [some 1, some 2])]) (by decide)
    rw [h.2]
    rfl⟩

/-- Row `i` of a data frame as the dictionary handed to `map_action`
(`df.iloc[i].to_dict()`): a missing column, a `NaN` cell or an
out-of-range index all read as `none`. -/
def Df.row (df : Df) (i : Nat) : Row :=
  fun c => ((df.cols.lookup c).bind fun col => col.get? i).getD none

/-- The one-row data frame holding only row `i` of `df`, as the
single-record flow would receive that row in isolation
(`pd.DataFrame([...])`). -/
def Df.rowDf (df : Df) (i : Nat) : Df :=
  { nrows := 1, cols := df.cols.map fun p => (p.1, [p.2.getD i none]) }

/-- Rounding to three decimals (`np.round(p, 3)`, `f"{prob:.3f}"`), as
rounding to the nearest thousandth; an exact midpoint, which no float
probability produces at the fourth decimal, rounds up here and to even in
numpy. -/
def round3 (q : ℚ) : ℚ := ⌊1000 * q + 1/2⌋ / 1000

/-- The single-record computation of tab 1 of `src/app.py` on a one-row
data frame: align to the schema, take the classifier probability of the
aligned row, and map it to an action using the raw row values and the
threshold. The pre-trained calibrated classifier is an external artifact,
abstracted as the per-row function `predict`. -/
def single_record (feats : List String) (predict : Row → ℚ) (thr : ℚ)
    (rdf : Df) : ℚ × String :=
  let X := ensure_feature_df feats rdf
  let prob := predict (X.row 0)
  (prob, map_action prob (rdf.row 0) thr)

/-- A cell of the exported batch table: the original and probability
columns are numeric, the recommendation column is text. -/
inductive Cell where
  | num : Option ℚ → Cell
  | str : String → Cell
deriving DecidableEq

/-- The exported batch table, which mixes numeric and text columns. -/
structure OutDf where
  nrows : Nat
  cols : List (String × List Cell)
deriving DecidableEq

/-- Pandas column assignment `out[name] = v`: overwrite the column in
place when the name already exists, otherwise append it on the right. -/
def setCol (cols : List (String × List Cell)) (name : String)
    (v : List Cell) : List (String × List Cell) :=
  if cols.any fun p => p.1 == name then
    cols.map fun p => if p.1 == name then (name, v) else p
  else
    cols ++ [(name, v)]

/-- Embedding of the tab 2 batch flow of `src/app.py`: align the uploaded
table, take each aligned row's classifier probability (`probs[i]`), map
each probability to an action using the corresponding raw row
(`raw.iloc[i].to_dict()`), and assign the two result columns onto a copy
of the uploaded table. -/
def batch_flow (feats : List String) (predict : Row → ℚ) (thr : ℚ)
    (raw : Df) : OutDf :=
  let Xb := ensure_feature_df feats raw
  let probs := (List.range Xb.nrows).map fun i => predict (Xb.row i)
  let actions := (List.range Xb.nrows).map fun i =>
    map_action (predict (Xb.row i)) (raw.row i) thr
  { nrows := raw.nrows,
    cols := setCol
      (setCol (raw.cols.map fun p => (p.1, p.2.map Cell.num))
        "prob_infection" (probs.map fun p => Cell.num (some (round3 p))))
      "recommendation" (actions.map Cell.str) }

/-- Reading any index of an all-null column gives null. -/
theorem get?_replicate_none_getD {α : Type} (n i : Nat) :
    ((List.replicate n (none : Option α)).get? i).getD none = none := by
  induction n generalizing i with
  | zero => cases i <;> rfl
  | succ m ih =>
    cases i with
    | zero => rfl
    | succ j => exact ih j

/-- Row `i` of the aligned table equals row 0 of the alignment of row `i`
taken in isolation: alignment commutes with row extraction. -/
theorem ensure_row_single (feats : List String) (df : Df) (i : Nat) :
    (ensure_feature_df feats df).row i
      = (ensure_feature_df feats (df.rowDf i)).row 0 := by
  funext c
  unfold Df.row ensure_feature_df Df.rowDf
  dsimp only
  rw [lookup_map_self, lookup_map_self]
  by_cases hc : c ∈ feats
  · rw [if_pos hc, if_pos hc]
    rw [lookup_map_snd (fun col => [col.getD i none]) c df.cols]
    cases dfl : df.cols.lookup c with
    | none => simp [get?_replicate_none_getD]
    | some col => simp [List.getD_eq_getD_get?]
  · rw [if_neg hc, if_neg hc]
    rfl

/-- Extracting row `i` as a dictionary agrees with first forming the
one-row frame of row `i` and reading its only row. -/
theorem row_rowDf (df : Df) (i : Nat) :
    df.row i = (df.rowDf i).row 0 := by
  funext c
  unfold Df.row Df.rowDf
  dsimp only
  rw [lookup_map_snd (fun col => [col.getD i none]) c df.cols]
  cases dfl : df.cols.lookup c with
  | none => rfl
  | some col => simp [List.getD_eq_getD_get?]

/-- Assigning a genuinely new column appends it on the right. -/
theorem setCol_append (cols : List (String × List Cell)) (name : String)
    (v : List Cell) (h : name ∉ cols.map Prod.fst) :
    setCol cols name v = cols ++ [(name, v)] := by
  unfold setCol
  rw [if_neg]
  intro hany
  rw [List.any_eq_true] at hany
  obtain ⟨p, hp, hpe⟩ := hany
  exact h (List.mem_map.mpr ⟨p, hp, beq_iff_eq.mp hpe⟩)

/-- Counterexample to C8 as stated: an uploaded table that already has a
`prob_infection` column does not keep it — pandas column assignment
overwrites its values in place, and only one genuinely new column is
added, so the output has two columns instead of one plus two. -/
theorem batch_flow_overwrites_cex :
    (Df.mk 1 [("prob_infection", [some 7])]).cols.lookup "prob_infection"
        = some [some (7 : ℚ)] ∧
    (batch_flow ["median_temp"] (fun _ => 0) 1
        (Df.mk 1 [("prob_infection", [some 7])])).cols
      = [("prob_infection", [Cell.num (some 0)]),
         ("recommendation", [Cell.str "Stop / De-escalate"])] ∧
    (batch_flow ["median_temp"] (fun _ => 0) 1
        (Df.mk 1 [("prob_infection", [some 7])])).cols.lookup "prob_infection"
      ≠ some ([some (7 : ℚ)].map Cell.num) ∧
    (batch_flow ["median_temp"] (fun _ => 0) 1
        (Df.mk 1 [("prob_infection", [some 7])])).cols.length
      = (Df.mk 1 [("prob_infection", [some 7])]).cols.length + 1 := by
  have h0 : round3 0 = 0 := by norm_num [round3]
  have hb : batch_flow ["median_temp"] (fun _ => 0) 1
      (Df.mk 1 [("prob_infection", [some 7])])
    = OutDf.mk 1 [("prob_infection", [Cell.num (some (round3 0))]),
                  ("recommendation", [Cell.str "Stop / De-escalate"])] := rfl
  rw [h0] at hb
  refine ⟨rfl, ?_, ?_, ?_⟩ <;> rw [hb] <;> decide

/-- C8 (amended): when the uploaded table has no column already named
`prob_infection` or `recommendation`, the batch flow preserves the row
count and the original columns in order with their values, and appends
exactly two new columns whose row-`i` entries are the rounded probability
and the action of the single-record computation applied to row `i` in
isolation. -/
theorem batch_flow_matches_single (feats : List String) (predict : Row → ℚ)
    (thr : ℚ) (raw : Df)
    (hp : "prob_infection" ∉ raw.cols.map Prod.fst)
    (hr : "recommendation" ∉ raw.cols.map Prod.fst) :
    (batch_flow feats predict thr raw).nrows = raw.nrows ∧
    (batch_flow feats predict thr raw).cols
      = (raw.cols.map fun p => (p.1, p.2.map Cell.num))
        ++ [("prob_infection", (List.range raw.nrows).map fun i =>
              Cell.num (some (round3
                (single_record feats predict thr (raw.rowDf i)).1))),
            ("recommendation", (List.range raw.nrows).map fun i =>
              Cell.str (single_record feats predict thr (raw.rowDf i)).2)] := by
  refine ⟨rfl, ?_⟩
  unfold batch_flow
  dsimp only
  have hkeys : ((raw.cols.map fun p => (p.1, p.2.map Cell.num)).map Prod.fst)
      = raw.cols.map Prod.fst := by
    rw [List.map_map]
    rfl
  have hp' : "prob_infection"
      ∉ (raw.cols.map fun p => (p.1, p.2.map Cell.num)).map Prod.fst := by
    rw [hkeys]
    exact hp
  have hr' : ∀ v : List Cell, "recommendation"
      ∉ ((raw.cols.map fun p => (p.1, p.2.map Cell.num))
          ++ [("prob_infection", v)]).map Prod.fst := by
    intro v hmem
    rw [List.map_append] at hmem
    rcases List.mem_append.mp hmem with h1 | h2
    · rw [hkeys] at h1
      exact hr h1
    · simp at h2
  rw [setCol_append _ _ _ hp', setCol_append _ _ _ (hr' _)]
  rw [List.append_assoc]
  congr 1
  rw [List.map_map, List.map_map]
  have hP : ∀ i ∈ List.range (ensure_feature_df feats raw).nrows,
      ((fun p => Cell.num (some (round3 p)))
          ∘ fun i => predict ((ensure_feature_df feats raw).row i)) i
        = (fun i => Cell.num (some (round3
            (single_record feats predict thr (raw.rowDf i)).1))) i := by
    intro i _
    dsimp only [Function.comp]
    rw [ensure_row_single feats raw i]
    rfl
  have hR : ∀ i ∈ List.range (ensure_feature_df feats raw).nrows,
      (Cell.str ∘ fun i =>
          map_action (predict ((ensure_feature_df feats raw).row i)) (raw.row i) thr) i
        = (fun i => Cell.str (single_record feats predict thr (raw.rowDf i)).2) i := by
    intro i _
    dsimp only [Function.comp]
    rw [ensure_row_single feats raw i, row_rowDf raw i]
    rfl
  rw [List.map_congr_left hP, List.map_congr_left hR]
  rfl

/-- Witness for C8 (amended): a one-row table with a single schema column
and a constant classifier at probability 3/4 against threshold 1/2. -/
theorem batch_flow_matches_single_witness :
    ("prob_infection" ∉ (Df.mk 1 [("median_temp", [some 39])]).cols.map Prod.fst) ∧
    ("recommendation" ∉ (Df.mk 1 [("median_temp", [some 39])]).cols.map Prod.fst) ∧
    (batch_flow ["median_temp"] (fun _ => 3/4) (1/2)
        (Df.mk 1 [("median_temp", [some 39])])).cols
      = ((Df.mk 1 [("median_temp", [some (39 : ℚ)])]).cols.map
          fun p => (p.1, p.2.map Cell.num))
        ++ [("prob_infection", (List.range 1).map fun i =>
              Cell.num (some (round3 (single_record ["median_temp"]
                (fun _ => 3/4) (1/2)
                ((Df.mk 1 [("median_temp", [some 39])]).rowDf i)).1))),
            ("recommendation", (List.range 1).map fun i =>
              Cell.str (single_record ["median_temp"] (fun _ => 3/4) (1/2)
                ((Df.mk 1 [("median_temp", [some 39])]).rowDf i)).2)] :=
  ⟨by decide, by decide,
    (batch_flow_matches_single ["median_temp"] (fun _ => 3/4) (1/2)
      (Df.mk 1 [("median_temp", [some 39])]) (by decide) (by decide)).2⟩

/-- The rendered outcome of the single-patient tab: the probability and
threshold metrics and the recommendation banner, then either the SHAP bar
chart or the informational note produced by the `except` handler. -/
structure SingleOut where
  prob_metric : ℚ
  thr_metric : ℚ
  action : String
  shap_chart : Option (List (String × ℚ))
  info_note : Option String
deriving DecidableEq

/-- Embedding of the tab 1 flow of `src/app.py` after the Predict button:
the metrics and the recommendation banner are rendered first, then the
SHAP block runs inside try/except. The SHAP computation lives in the
external `shap` library, so its outcome is abstracted as `explain`:
`Except.ok` carries the top-5 contribution ranking and renders the bar
chart, `Except.error` carries the exception message and renders the
informational note instead. -/
def tab1_flow (feats : List String) (predict : Row → ℚ) (thr : ℚ)
    (explain : Except String (List (String × ℚ))) (row : Df) : SingleOut :=
  let X := ensure_feature_df feats row
  let prob := predict (X.row 0)
  let action := map_action prob (row.row 0) thr
  match explain with
  | Except.ok contrib =>
      { prob_metric := prob, thr_metric := thr, action := action,
        shap_chart := some contrib, info_note := none }
  | Except.error e =>
      { prob_metric := prob, thr_metric := thr, action := action,
        shap_chart := none,
        info_note := some ("SHAP tidak ditampilkan (" ++ e ++ ").") }

/-- C9: a failing explanation step never aborts the primary prediction:
for any exception message, the probability metric, threshold metric and
mapped action are identical to those of a run whose explanation succeeds,
and the failure surfaces only as the informational note. -/
theorem tab1_flow_degrades (feats : List String) (predict : Row → ℚ)
    (thr : ℚ) (row : Df) (e : String) (contrib : List (String × ℚ)) :
    (tab1_flow feats predict thr (Except.error e) row).prob_metric
        = (tab1_flow feats predict thr (Except.ok contrib) row).prob_metric ∧
    (tab1_flow feats predict thr (Except.error e) row).thr_metric
        = (tab1_flow feats predict thr (Except.ok contrib) row).thr_metric ∧
    (tab1_flow feats predict thr (Except.error e) row).action
        = (tab1_flow feats predict thr (Except.ok contrib) row).action ∧
    (tab1_flow feats predict thr (Except.error e) row).info_note
        = some ("SHAP tidak ditampilkan (" ++ e ++ ").") :=
  ⟨rfl, rfl, rfl, rfl⟩

end Antibiotic
